import Mathlib

/-!
# neutronClientMain.cpp — callback coordinators and session sequencing

A shallow embedding of `src/neutronsDemoServer/src/neutronClientMain.cpp`.

* Every requester class becomes a structure holding its `Event` member; every
  callback becomes a function from the requester (and the callback's arguments)
  to the requester afterwards, the text written to `cout`, and the calls made on
  the `ChannelGet` handle.
* Shared pointers handed to the callbacks are represented by the object they
  point to: the source dereferences them without a null test.  A callback
  delivered with a null pointer is outside this development.
* `double` values are only stored and passed on by this program; they are
  represented by rationals.
* The provider runs on its own threads.  A provider is represented by the
  notifications it has delivered to a requester by the time the wait that
  follows the request returns.
-/

namespace NeutronClient

/-! ## Data delivered by the library -/

/-- Status of epics::pvData: the program consults `isSuccess()` and prints the status. -/
structure Status where
  isSuccess : Bool
  text : String
  deriving DecidableEq, Repr

/-- Connection states of a channel (Channel::ConnectionState). -/
inductive ConnectionState where
  | NEVER_CONNECTED
  | CONNECTED
  | DISCONNECTED
  | DESTROYED
  deriving DecidableEq, Repr

/-- Channel handle; the program reads its name only. -/
structure Channel where
  getChannelName : String
  deriving DecidableEq, Repr

/-- Fetch operation handle; `getChannel()` gives the channel it is bound to. -/
structure ChannelGet where
  getChannel : Channel
  deriving DecidableEq, Repr

/-- Kinds of introspection data (`field->getType()`). -/
inductive FieldType where
  | scalar
  | scalarArray
  | structure_
  | structureArray
  | union_
  | unionArray
  deriving DecidableEq, Repr

/-- Introspection data delivered by a type-discovery request. -/
structure Field where
  getType : FieldType
  deriving DecidableEq, Repr

/-- Introspection data of a structure, as printed by `dump`. -/
structure Structure where
  dumpText : String
  deriving DecidableEq, Repr

/-- Structured data: named numeric fields. -/
structure PVStructure where
  fields : List (String × ℚ)
  deriving DecidableEq, Repr

/-- Change mask: the indices of the bits that are set. -/
structure BitSet where
  bits : List ℕ
  deriving DecidableEq, Repr

/-- One item written to `cout` with `<<`. -/
inductive Token where
  | str (s : String)
  | status (s : Status)
  | stateName (c : ConnectionState)
  | stateNumber (c : ConnectionState)
  | fieldType (t : FieldType)
  | dump (s : Structure)
  | dumpValue (p : PVStructure)
  | size (n : ℕ)
  | double (d : ℚ)
  | exception (what : String)
  | invalidOption (name : String) (c : Char)
  | missingArgument (name : String) (c : Char)
  | endl
  deriving DecidableEq, Repr

/-- Calls a requester makes on the fetch operation. -/
inductive Call where
  | lastRequest (channelGet : ChannelGet)
  | get (channelGet : ChannelGet)
  deriving DecidableEq, Repr

/-- What one callback does: the requester afterwards, the output, the calls on the
fetch operation, in the order they are made. -/
structure Effect (σ : Type) where
  self : σ
  cout : List Token
  calls : List Call

/-! ## Event -/

/-- Modelled from the spec: WaitableSignal (class Event of pv/event.h is not under
src/).  The state is unset or set; a fresh instance is unset. -/
structure Event where
  isSet : Bool
  deriving DecidableEq, Repr

/-- A freshly constructed event is unset. -/
def Event.new : Event := ⟨false⟩

/-- Modelled from the spec: `signal()` marks the instance set; repeatable, idempotent. -/
def Event.signal (_e : Event) : Event := ⟨true⟩

/-- Modelled from the spec: `wait(timeout)` returns whether it observed "set"; with
every signal already delivered this is the state at call time, for every timeout. -/
def Event.wait (e : Event) (_timeOut : ℚ) : Bool := e.isSet

/-! ## ChannelRequester -/

/-- Class MyChannelRequester: its only member is `connect_event`. -/
structure MyChannelRequester where
  connect_event : Event
  deriving DecidableEq, Repr

/-- Constructor `MyChannelRequester()`. -/
def MyChannelRequester.new : MyChannelRequester := ⟨Event.new⟩

/-- Method `waitUntilConnected(timeOut)`. -/
def MyChannelRequester.waitUntilConnected (r : MyChannelRequester) (timeOut : ℚ) : Bool :=
  r.connect_event.wait timeOut

/-- Callback `channelCreated(status, channel)`: prints a line. -/
def MyChannelRequester.channelCreated (r : MyChannelRequester) (status : Status)
    (channel : Channel) : Effect MyChannelRequester :=
  { self := r
    cout := [.str channel.getChannelName, .str " created, ", .status status, .endl]
    calls := [] }

/-- Callback `channelStateChange(channel, connectionState)`: prints the state and
signals `connect_event` when the state is CONNECTED. -/
def MyChannelRequester.channelStateChange (r : MyChannelRequester) (channel : Channel)
    (connectionState : ConnectionState) : Effect MyChannelRequester :=
  { self := if connectionState = ConnectionState.CONNECTED
            then { r with connect_event := r.connect_event.signal }
            else r
    cout := [.str channel.getChannelName, .str " state: ", .stateName connectionState,
             .str " (", .stateNumber connectionState, .str ")", .endl]
    calls := [] }

/-! ## GetFieldRequester -/

/-- Class MyFieldRequester: its only member is `done_event`. -/
structure MyFieldRequester where
  done_event : Event
  deriving DecidableEq, Repr

/-- Constructor `MyFieldRequester()`. -/
def MyFieldRequester.new : MyFieldRequester := ⟨Event.new⟩

/-- Method `waitUntilDone(timeOut)`. -/
def MyFieldRequester.waitUntilDone (r : MyFieldRequester) (timeOut : ℚ) : Bool :=
  r.done_event.wait timeOut

/-- Callback `getDone(status, field)`: prints the field type and signals; the status
is not consulted. -/
def MyFieldRequester.getDone (r : MyFieldRequester) (_status : Status) (field : Field) :
    Effect MyFieldRequester :=
  { self := { r with done_event := r.done_event.signal }
    cout := [.str "Field type: ", .fieldType field.getType, .endl]
    calls := [] }

/-! ## ChannelGetRequester -/

/-- Class MyChannelGetRequester: its only member is `done_event`. -/
structure MyChannelGetRequester where
  done_event : Event
  deriving DecidableEq, Repr

/-- Constructor `MyChannelGetRequester()`. -/
def MyChannelGetRequester.new : MyChannelGetRequester := ⟨Event.new⟩

/-- Method `waitUntilDone(timeOut)`. -/
def MyChannelGetRequester.waitUntilDone (r : MyChannelGetRequester) (timeOut : ℚ) : Bool :=
  r.done_event.wait timeOut

/-- Callback `channelGetConnect(status, channelGet, structure)`: on success prints
the structure and calls `lastRequest()` then `get()`; otherwise prints the problem;
in both cases `done_event` is signalled last. -/
def MyChannelGetRequester.channelGetConnect (r : MyChannelGetRequester) (status : Status)
    (channelGet : ChannelGet) (structure_ : Structure) : Effect MyChannelGetRequester :=
  let signalled : MyChannelGetRequester := { r with done_event := r.done_event.signal }
  if status.isSuccess then
    { self := signalled
      cout := [.str "ChannelGet for ", .str channelGet.getChannel.getChannelName,
               .str " connected, ", .status status, .endl,
               .str "Channel structure:", .endl,
               .dump structure_]
      calls := [.lastRequest channelGet, .get channelGet] }
  else
    { self := signalled
      cout := [.str "ChannelGet for ", .str channelGet.getChannel.getChannelName,
               .str " problem, ", .status status, .endl]
      calls := [] }

/-- Callback `getDone(status, channelGet, pvStructure, bitSet)`: prints the status
and, on success, the value. -/
def MyChannelGetRequester.getDone (r : MyChannelGetRequester) (status : Status)
    (channelGet : ChannelGet) (pvStructure : PVStructure) (_bitSet : BitSet) :
    Effect MyChannelGetRequester :=
  { self := r
    cout := [.str "ChannelGet for ", .str channelGet.getChannel.getChannelName,
             .str " finished, ", .status status, .endl]
            ++ (if status.isSuccess then [.dumpValue pvStructure] else [])
    calls := [] }

/-! ## Notifications delivered to one requester -/

/-- Effect of doing nothing. -/
def Effect.skip {σ : Type} (s : σ) : Effect σ := ⟨s, [], []⟩

/-- One callback after another: outputs and calls are appended in order. -/
def Effect.andThen {σ : Type} (e : Effect σ) (f : σ → Effect σ) : Effect σ :=
  let e2 := f e.self
  ⟨e2.self, e.cout ++ e2.cout, e.calls ++ e2.calls⟩

/-- Callbacks run one after another on a requester, in the order of delivery. -/
def deliverAll {σ ν : Type} (deliver : σ → ν → Effect σ) : σ → List ν → Effect σ
  | s, [] => Effect.skip s
  | s, n :: ns => (deliver s n).andThen (fun s2 => deliverAll deliver s2 ns)

/-- Notifications a provider delivers to a ChannelRequester. -/
inductive ChannelNotification where
  | channelCreated (status : Status) (channel : Channel)
  | channelStateChange (channel : Channel) (connectionState : ConnectionState)
  deriving DecidableEq, Repr

/-- Notifications a provider delivers to a GetFieldRequester. -/
inductive FieldNotification where
  | getDone (status : Status) (field : Field)
  deriving DecidableEq, Repr

/-- Notifications a provider delivers to a ChannelGetRequester. -/
inductive GetNotification where
  | channelGetConnect (status : Status) (channelGet : ChannelGet) (structure_ : Structure)
  | getDone (status : Status) (channelGet : ChannelGet) (pvStructure : PVStructure)
      (bitSet : BitSet)
  deriving DecidableEq, Repr

/-- Dispatch of one notification to the callback of MyChannelRequester. -/
def MyChannelRequester.deliver (r : MyChannelRequester) :
    ChannelNotification → Effect MyChannelRequester
  | .channelCreated status channel => r.channelCreated status channel
  | .channelStateChange channel connectionState => r.channelStateChange channel connectionState

/-- Dispatch of one notification to the callback of MyFieldRequester. -/
def MyFieldRequester.deliver (r : MyFieldRequester) :
    FieldNotification → Effect MyFieldRequester
  | .getDone status field => r.getDone status field

/-- Dispatch of one notification to the callback of MyChannelGetRequester. -/
def MyChannelGetRequester.deliver (r : MyChannelGetRequester) :
    GetNotification → Effect MyChannelGetRequester
  | .channelGetConnect status channelGet structure_ =>
      r.channelGetConnect status channelGet structure_
  | .getDone status channelGet pvStructure bitSet =>
      r.getDone status channelGet pvStructure bitSet

/-! ## monitor -/

/-- A channel provider, seen from the thread that runs `monitor`: for each request,
the notifications its threads deliver to the requester handed over with the
request, up to the return of the wait that follows. -/
structure ChannelProvider where
  createChannel : String → List ChannelNotification
  getField : String → String → List FieldNotification
  createChannelGet : String → PVStructure → List GetNotification

/-- The process-wide registry behind `getChannelProviderRegistry()`. -/
structure ChannelProviderRegistry where
  getProvider : String → Option ChannelProvider
  getProviderNames : List String

/-- What the program finds around it: the provider registry, the request parser
`CreateRequest::createRequest`, the C function `atof`, and whether the environment
variable POSIXLY_CORRECT is set. -/
structure Env where
  registry : ChannelProviderRegistry
  createRequest : String → PVStructure
  atof : String → ℚ
  posixlyCorrect : Bool

/-- Calls made by `monitor` and `main`, in program order; a wait is recorded with
the timeout it was given and the value it returned. -/
inductive Action where
  | getProvider (name : String)
  | createChannel (name : String)
  | waitUntilConnected (timeOut : ℚ) (result : Bool)
  | getField (subField : String)
  | fieldWaitUntilDone (timeOut : ℚ) (result : Bool)
  | createRequest (request : String)
  | createChannelGet (pvRequest : PVStructure)
  | getWaitUntilDone (timeOut : ℚ) (result : Bool)
  | clientFactoryStart
  | getProviderNames
  | monitor (name request : String) (timeout : ℚ)
  | epicsThreadSleep (seconds : ℚ)
  | clientFactoryStop
  deriving DecidableEq, Repr

/-- Outcome of `monitor`: what it did, what the callbacks printed and called, and
how it ended: `monitor` is declared `void`, so a normal return carries no value; a
thrown exception carries its message. -/
structure MonitorResult where
  actions : List Action
  cout : List Token
  calls : List Call
  result : Except String Unit

/-- Function `monitor(name, request, timeout)`. -/
def monitor (env : Env) (name request : String) (timeout : ℚ) : MonitorResult :=
  match env.registry.getProvider "pva" with
  | none =>
    { actions := [.getProvider "pva"]
      cout := []
      calls := []
      result := .error "No channel provider" }
  | some channelProvider =>
    let channelRequester :=
      deliverAll MyChannelRequester.deliver MyChannelRequester.new
        (channelProvider.createChannel name)
    let connected := channelRequester.self.waitUntilConnected timeout
    let fieldRequester :=
      deliverAll MyFieldRequester.deliver MyFieldRequester.new
        (channelProvider.getField name "")
    let fieldDone := fieldRequester.self.waitUntilDone timeout
    let pvRequest := env.createRequest request
    let channelGetRequester :=
      deliverAll MyChannelGetRequester.deliver MyChannelGetRequester.new
        (channelProvider.createChannelGet name pvRequest)
    let getDone := channelGetRequester.self.waitUntilDone timeout
    { actions := [.getProvider "pva",
                  .createChannel name, .waitUntilConnected timeout connected,
                  .getField "", .fieldWaitUntilDone timeout fieldDone,
                  .createRequest request, .createChannelGet pvRequest,
                  .getWaitUntilDone timeout getDone]
      cout := channelRequester.cout ++ fieldRequester.cout ++ channelGetRequester.cout
      calls := channelGetRequester.calls
      result := .ok () }

/-- Function `listProviders()`: prints the numbered provider names. -/
def listProviders (env : Env) : List Token :=
  [.str "Available channel providers:", .endl] ++
    (env.registry.getProviderNames.enum.map
      (fun p => [Token.size (p.1 + 1), .str ") ", .str p.2, .endl])).flatten

/-- Function `help(name)`: the usage text. -/
def help (name : String) : List Token :=
  [.str "USAGE: ", .str name, .str " [options] [channel]", .endl,
   .str "  -h        : Help", .endl,
   .str "  -r request: Request", .endl,
   .str "  -w seconds: Wait timeout", .endl]

/-! ## getopt

The C library function `getopt` is not part of the repository; it is modelled after
its manual page.  Options are scanned from `argv[1]` on; several option characters
may share one element; the element `--` ends the scan.  By default the function
permutes `argv` as it scans, so that the elements that are not options end up after
the options and an option that follows a positional argument is still met; when the
environment variable POSIXLY_CORRECT is set, the scan stops at the first element that
is not an option.  The program leaves `opterr` at its initial value and the option
string does not start with a colon, so an unrecognized option and a missing argument
are reported on `stderr` and returned as `?`. -/

/-- Code of a character, as the `int` that `getopt` returns. -/
def charCode (c : Char) : ℤ := (c.toNat : ℤ)

/-- Whether an element of `argv` is not an option: it does not start with a dash, or
it is a dash alone. -/
def isNonOption (a : String) : Bool :=
  match a.toList with
  | '-' :: _ :: _ => false
  | _ => true

/-- Variables of `getopt` that persist between calls, with `argv` as the function has
permuted it so far: `argv[0]`, the elements scanned as options (and option
arguments), the elements passed over because they are not options, the elements not
yet looked at, the characters of the current element still to be scanned, and
`optarg`. -/
structure GetoptState where
  name : String
  scanned : List String
  skipped : List String
  rest : List String
  nextchar : List Char
  optarg : Option String
  deriving DecidableEq, Repr

/-- State before the first call on `argv`. -/
def GetoptState.start (argv : List String) : GetoptState :=
  ⟨argv.headD "", [], [], argv.tail, [], none⟩

/-- Contents of `argv` once `getopt` has returned -1: the options first, then the
elements passed over, then the elements not looked at. -/
def GetoptState.argv (s : GetoptState) : List String :=
  s.name :: (s.scanned ++ s.skipped ++ s.rest)

/-- Value of `optind` once `getopt` has returned -1: the index of the first element
of the permuted `argv` that is not an option. -/
def GetoptState.optind (s : GetoptState) : ℕ := 1 + s.scanned.length

/-- What one call of `getopt` gives: the returned value, the text written to
`stderr`, and the state afterwards. -/
structure GetoptReturn where
  opt : ℤ
  stderr : List Token
  state : GetoptState

/-- Look-up of an option character in the option string: `none` when it is not an
option, otherwise whether the option takes an argument (a colon follows it). -/
def optionKind : List Char → Char → Option Bool
  | [], _ => none
  | o :: rest, c =>
    if o = c ∧ c ≠ ':' then some (rest.head? = some ':') else optionKind rest c

/-- Scan of option character `c`; `cs` are the characters after it in its element,
which state `s` already counts as scanned. -/
def scanOption (optstring : String) (s : GetoptState) (c : Char) (cs : List Char) :
    GetoptReturn :=
  match optionKind optstring.toList c with
  | none =>
    ⟨charCode '?', [.invalidOption s.name c], { s with nextchar := cs, optarg := none }⟩
  | some false => ⟨charCode c, [], { s with nextchar := cs, optarg := none }⟩
  | some true =>
    if cs ≠ [] then
      ⟨charCode c, [], { s with nextchar := [], optarg := some (String.mk cs) }⟩
    else
      match s.rest with
      | [] =>
        ⟨charCode '?', [.missingArgument s.name c], { s with nextchar := [], optarg := none }⟩
      | a :: rest =>
        ⟨charCode c, [],
          { s with scanned := s.scanned ++ [a], rest := rest, nextchar := [],
                   optarg := some a }⟩

/-- One call `getopt(argc, argv, optstring)`; `posixlyCorrect` tells whether the
environment variable POSIXLY_CORRECT is set. -/
def getopt (posixlyCorrect : Bool) (optstring : String) (s : GetoptState) : GetoptReturn :=
  match s.nextchar with
  | c :: cs => scanOption optstring s c cs
  | [] =>
    let s1 : GetoptState :=
      if posixlyCorrect then s
      else { s with skipped := s.skipped ++ s.rest.takeWhile isNonOption
                    rest := s.rest.dropWhile isNonOption }
    match s1.rest with
    | [] => ⟨-1, [], { s1 with optarg := none }⟩
    | arg :: rest =>
      match arg.toList with
      | '-' :: c :: cs =>
        if c = '-' ∧ cs = [] then
          ⟨-1, [], { s1 with scanned := s1.scanned ++ [arg], rest := rest, optarg := none }⟩
        else
          scanOption optstring { s1 with scanned := s1.scanned ++ [arg], rest := rest } c cs
      | _ => ⟨-1, [], { s1 with optarg := none }⟩

/-- Number of characters in a list of elements. -/
def argvWeight (l : List String) : ℕ := (l.map (fun a => a.toList.length)).sum

/-- What is left to scan: it decreases with every call of `getopt` that does not
return -1. -/
def getoptMeasure (s : GetoptState) : ℕ := argvWeight s.rest + s.nextchar.length

/-! ## main -/

/-- How the option loop of `main` ends: with a `return` from inside the loop, or by
leaving the loop with the values of `request` and `timeout` and the state of
`getopt`; in both cases with what `getopt` has written to `stderr`. -/
inductive Parsed where
  | exit (status : ℤ) (cout : List Token) (stderr : List Token)
  | run (request : String) (timeout : ℚ) (state : GetoptState) (stderr : List Token)

set_option linter.unusedVariables false in
/-- The loop `while ((opt = getopt(argc, argv, "r:w:h")) != -1) switch (opt) ...` of
`main`, started in getopt state `s` with the current `request` and `timeout`;
`err` is what has been written to `stderr` so far. -/
def optionLoop (env : Env) (argv : List String) (s : GetoptState) (request : String)
    (timeout : ℚ) (err : List Token) : Parsed :=
  if hcont : (getopt env.posixlyCorrect "r:w:h" s).opt = -1 then
    .run request timeout (getopt env.posixlyCorrect "r:w:h" s).state
      (err ++ (getopt env.posixlyCorrect "r:w:h" s).stderr)
  else if (getopt env.posixlyCorrect "r:w:h" s).opt = charCode 'r' then
    optionLoop env argv (getopt env.posixlyCorrect "r:w:h" s).state
      ((getopt env.posixlyCorrect "r:w:h" s).state.optarg.getD "") timeout
      (err ++ (getopt env.posixlyCorrect "r:w:h" s).stderr)
  else if (getopt env.posixlyCorrect "r:w:h" s).opt = charCode 'w' then
    optionLoop env argv (getopt env.posixlyCorrect "r:w:h" s).state request
      (env.atof ((getopt env.posixlyCorrect "r:w:h" s).state.optarg.getD ""))
      (err ++ (getopt env.posixlyCorrect "r:w:h" s).stderr)
  else if (getopt env.posixlyCorrect "r:w:h" s).opt = charCode 'h' then
    .exit 0 (help (argv.getD 0 "")) (err ++ (getopt env.posixlyCorrect "r:w:h" s).stderr)
  else
    .exit (-1) (help (argv.getD 0 "")) (err ++ (getopt env.posixlyCorrect "r:w:h" s).stderr)
termination_by getoptMeasure s
decreasing_by
  all_goals
    have weight_drop : ∀ l : List String,
        argvWeight (l.dropWhile isNonOption) ≤ argvWeight l := by
      intro l
      induction l with
      | nil => simp
      | cons a l ih =>
        rw [List.dropWhile_cons]
        split
        · simp only [argvWeight, List.map_cons, List.sum_cons] at ih ⊢
          omega
        · exact le_refl _
    have scan_le : ∀ (t : GetoptState) (c : Char) (cs : List Char),
        getoptMeasure (scanOption "r:w:h" t c cs).state ≤ argvWeight t.rest + cs.length := by
      intro t c cs
      unfold scanOption
      rcases optionKind "r:w:h".toList c with _ | b
      · simp [getoptMeasure]
      · cases b
        · simp [getoptMeasure]
        · by_cases hcs : cs = []
          · subst hcs
            rcases hr : t.rest with _ | ⟨a, rest⟩
            · simp [getoptMeasure, hr]
            · simp [getoptMeasure, argvWeight]
          · simp [getoptMeasure, hcs]
    unfold getopt at hcont ⊢
    split at hcont
    · rename_i c cs hn
      have := scan_le s c cs
      have h2 : getoptMeasure s = argvWeight s.rest + (cs.length + 1) := by
        simp [getoptMeasure, hn]
      omega
    · rename_i hn
      have h2 : getoptMeasure s = argvWeight s.rest := by simp [getoptMeasure, hn]
      have hdrop := weight_drop s.rest
      have hcons : ∀ (a : String) (l : List String),
          argvWeight (a :: l) = a.toList.length + argvWeight l := by
        intro a l
        simp only [argvWeight, List.map_cons, List.sum_cons]
      rcases hp : env.posixlyCorrect
      · simp only [hp, Bool.false_eq_true, if_false] at hcont ⊢
        split at hcont
        · simp at hcont
        · rename_i arg rest hrest
          split at hcont
          · rename_i c cs hl
            split at hcont
            · simp at hcont
            · rename_i hc
              have := scan_le
                { s with skipped := s.skipped ++ s.rest.takeWhile isNonOption
                         scanned := s.scanned ++ [arg], rest := rest } c cs
              rw [if_neg hc]
              have hw := hcons arg rest
              rw [hl] at hw
              simp only [List.length_cons] at hw
              simp only at hrest this
              rw [hrest] at hdrop
              omega
          · simp at hcont
      · simp only [hp, if_true] at hcont ⊢
        split at hcont
        · simp at hcont
        · rename_i arg rest hrest
          split at hcont
          · rename_i c cs hl
            split at hcont
            · simp at hcont
            · rename_i hc
              have := scan_le { s with scanned := s.scanned ++ [arg], rest := rest } c cs
              rw [if_neg hc]
              have hw := hcons arg rest
              rw [hl] at hw
              simp only [List.length_cons] at hw
              simp only at this
              rw [hrest] at h2
              omega
          · simp at hcont

/-- Outcome of `main`: the returned status, the text on `cout` and on `stderr`, the
calls made, and the calls the get requester made on the fetch operation. -/
structure MainResult where
  status : ℤ
  cout : List Token
  stderr : List Token
  actions : List Action
  calls : List Call

/-- Function `main(argc, argv)`; `argv[0]` is the program name. -/
def main (env : Env) (argv : List String) : MainResult :=
  match optionLoop env argv (GetoptState.start argv) "field()" 2 [] with
  | .exit status cout stderr => ⟨status, cout, stderr, [], []⟩
  | .run request timeout s stderr =>
    let channel := if s.optind < argv.length then s.argv.getD s.optind "" else "neutrons"
    let banner : List Token :=
      [.str "Channel: ", .str channel, .endl,
       .str "Request: ", .str request, .endl,
       .str "Wait:    ", .double timeout, .str " sec", .endl]
    let m := monitor env channel request timeout
    match m.result with
    | .ok _ =>
      { status := 0
        cout := banner ++ listProviders env ++ m.cout
        stderr := stderr
        actions := [.clientFactoryStart, .getProviderNames, .monitor channel request timeout]
                   ++ m.actions ++ [.epicsThreadSleep 5, .clientFactoryStop]
        calls := m.calls }
    | .error what =>
      { status := 0
        cout := banner ++ listProviders env ++ m.cout ++ [.exception what]
        stderr := stderr ++ [.str "Exception: ", .str what, .str "\n", .exception what]
        actions := [.clientFactoryStart, .getProviderNames, .monitor channel request timeout]
                   ++ m.actions
        calls := m.calls }

/-- State of `getopt` after `k` further calls made from state `s`. -/
def getoptState (env : Env) (s : GetoptState) : ℕ → GetoptState
  | 0 => s
  | k + 1 => getoptState env (getopt env.posixlyCorrect "r:w:h" s).state k

/-- Value returned by call number `k` (counted from 0) of `getopt` in a run of calls
that starts in state `s`. -/
def getoptValue (env : Env) (s : GetoptState) (k : ℕ) : ℤ :=
  (getopt env.posixlyCorrect "r:w:h" (getoptState env s k)).opt

/-! ## Example libraries and providers -/

/-- A registry without providers. -/
def emptyRegistry : ChannelProviderRegistry := ⟨fun _ => none, []⟩

/-- A provider that never delivers a notification: every wait times out. -/
def silentProvider : ChannelProvider := ⟨fun _ => [], fun _ _ => [], fun _ _ => []⟩

/-- A provider whose channel connects, whose discovery reports a scalar, and whose
fetch connects and completes with value 42.0 and change mask {0}. -/
def servingProvider : ChannelProvider :=
  { createChannel := fun name =>
      [.channelCreated ⟨true, "OK"⟩ ⟨name⟩,
       .channelStateChange ⟨name⟩ ConnectionState.CONNECTED]
    getField := fun _ _ => [.getDone ⟨true, "OK"⟩ ⟨FieldType.scalar⟩]
    createChannelGet := fun name _ =>
      [.channelGetConnect ⟨true, "OK"⟩ ⟨⟨name⟩⟩ ⟨"double value"⟩,
       .getDone ⟨true, "OK"⟩ ⟨⟨name⟩⟩ ⟨[("value", 42)]⟩ ⟨[0]⟩] }

/-- A provider whose fetch operation fails to connect. -/
def failingProvider : ChannelProvider :=
  { createChannel := fun name =>
      [.channelCreated ⟨true, "OK"⟩ ⟨name⟩,
       .channelStateChange ⟨name⟩ ConnectionState.CONNECTED]
    getField := fun _ _ => [.getDone ⟨true, "OK"⟩ ⟨FieldType.scalar⟩]
    createChannelGet := fun name _ =>
      [.channelGetConnect ⟨false, "not connected"⟩ ⟨⟨name⟩⟩ ⟨""⟩] }

/-- Library with the given provider registered under every name. -/
def envWith (p : ChannelProvider) : Env :=
  { registry := ⟨fun _ => some p, ["pva"]⟩
    createRequest := fun _ => ⟨[]⟩
    atof := fun _ => 0
    posixlyCorrect := false }

/-- Library with an empty registry. -/
def envWithout : Env :=
  { registry := emptyRegistry
    createRequest := fun _ => ⟨[]⟩
    atof := fun _ => 0
    posixlyCorrect := false }

/-! # Theorems -/

/-! ## The fetch coordinator -/

/-- Calls accumulate: the calls of a delivery sequence are those of its first
notification followed by those of the rest. -/
theorem deliverAll_cons_calls {σ ν : Type} (deliver : σ → ν → Effect σ) (s : σ) (n : ν)
    (ns : List ν) :
    (deliverAll deliver s (n :: ns)).calls
      = (deliver s n).calls ++ (deliverAll deliver (deliver s n).self ns).calls := by
  simp [deliverAll, Effect.andThen]

/-- The requester after a delivery sequence is the requester after the rest of the
sequence, started from the requester after the first notification. -/
theorem deliverAll_cons_self {σ ν : Type} (deliver : σ → ν → Effect σ) (s : σ) (n : ν)
    (ns : List ν) :
    (deliverAll deliver s (n :: ns)).self = (deliverAll deliver (deliver s n).self ns).self := by
  simp [deliverAll, Effect.andThen]

/-- A get call in the calls of a delivery sequence comes from a connect notification
with success status in that sequence, whatever the requester's state at the start. -/
theorem get_call_has_connect (ns : List GetNotification) :
    ∀ (r : MyChannelGetRequester) (channelGet : ChannelGet),
      Call.get channelGet ∈ (deliverAll MyChannelGetRequester.deliver r ns).calls →
      ∃ status structure_,
        GetNotification.channelGetConnect status channelGet structure_ ∈ ns
          ∧ status.isSuccess = true := by
  induction ns with
  | nil => intro r channelGet h; simp [deliverAll, Effect.skip] at h
  | cons n ns ih =>
    intro r channelGet h
    rw [deliverAll_cons_calls, List.mem_append] at h
    rcases h with h | h
    · cases n with
      | channelGetConnect status cg structure_ =>
        by_cases hs : status.isSuccess = true
        · simp [MyChannelGetRequester.deliver, MyChannelGetRequester.channelGetConnect, hs] at h
          subst h
          exact ⟨status, structure_, List.mem_cons_self _ _, hs⟩
        · simp [MyChannelGetRequester.deliver, MyChannelGetRequester.channelGetConnect, hs] at h
      | getDone status cg pv bits =>
        simp [MyChannelGetRequester.deliver, MyChannelGetRequester.getDone] at h
    · obtain ⟨status, structure_, hmem, hs⟩ := ih _ channelGet h
      exact ⟨status, structure_, List.mem_cons_of_mem _ hmem, hs⟩

/-- C1: channelGetConnect with a success status calls lastRequest() once and then
get() once on the fetch operation, and nothing else; with a failure status it makes
no call.  Hence, for every sequence of notifications delivered to a fresh requester,
a get() among the calls made so far comes from a connect notification with success
status among the notifications delivered so far. -/
theorem channelGetConnect_calls :
    (∀ (r : MyChannelGetRequester) (status : Status) (channelGet : ChannelGet)
        (structure_ : Structure),
        (r.channelGetConnect status channelGet structure_).calls
          = if status.isSuccess then [Call.lastRequest channelGet, Call.get channelGet]
            else [])
    ∧ (∀ (ns : List GetNotification) (channelGet : ChannelGet),
        Call.get channelGet
            ∈ (deliverAll MyChannelGetRequester.deliver MyChannelGetRequester.new ns).calls →
        ∃ status structure_,
          GetNotification.channelGetConnect status channelGet structure_ ∈ ns
            ∧ status.isSuccess = true) := by
  refine ⟨?_, ?_⟩
  · intro r status channelGet structure_
    unfold MyChannelGetRequester.channelGetConnect
    by_cases hs : status.isSuccess = true <;> simp [hs]
  · intro ns channelGet h
    exact get_call_has_connect ns _ channelGet h

/-- C2: after channelGetConnect with a failure status the done signal is set, so that
waitUntilDone returns true for every timeout, and no call has been made on the fetch
operation. -/
theorem channelGetConnect_failure_releases (r : MyChannelGetRequester) (status : Status)
    (channelGet : ChannelGet) (structure_ : Structure) (t : ℚ)
    (hfail : status.isSuccess = false) :
    (r.channelGetConnect status channelGet structure_).self.waitUntilDone t = true
      ∧ (r.channelGetConnect status channelGet structure_).calls = [] := by
  simp [MyChannelGetRequester.channelGetConnect, hfail, MyChannelGetRequester.waitUntilDone,
    Event.wait, Event.signal]

/-- Witness of C2: a fresh requester, a failed connect, timeout 0. -/
theorem channelGetConnect_failure_releases_witness :
    (Status.mk false "channel not connected").isSuccess = false
      ∧ ((MyChannelGetRequester.new.channelGetConnect (Status.mk false "channel not connected")
            ⟨⟨"neutrons"⟩⟩ ⟨""⟩).self.waitUntilDone 0 = true
        ∧ (MyChannelGetRequester.new.channelGetConnect (Status.mk false "channel not connected")
            ⟨⟨"neutrons"⟩⟩ ⟨""⟩).calls = []) :=
  ⟨rfl, channelGetConnect_failure_releases _ _ _ _ 0 rfl⟩

/-- C3, the code at the failing input: getDone with a success status, delivered to a
fresh requester, leaves the done signal unset, and waitUntilDone(0) returns false. -/
theorem getDone_leaves_signal_unset :
    (MyChannelGetRequester.new.getDone (Status.mk true "OK") ⟨⟨"neutrons"⟩⟩
        ⟨[("value", 42)]⟩ ⟨[0]⟩).self.waitUntilDone 0 = false := by
  rfl

/-- C4, the code at the failing input: after a connect notification with success
status and no fetch-complete notification, the done signal of a fresh requester is
set, and waitUntilDone(0) returns true. -/
theorem connect_success_sets_signal :
    (deliverAll MyChannelGetRequester.deliver MyChannelGetRequester.new
        [GetNotification.channelGetConnect (Status.mk true "OK") ⟨⟨"neutrons"⟩⟩ ⟨""⟩]
      ).self.waitUntilDone 0 = true := by
  rfl

/-- What the code does with the done signal of the get requester: after a delivery
sequence it is set exactly when it was set at the start or the sequence contains a
connect notification, of any status; fetch-complete notifications play no part. -/
theorem done_event_after (ns : List GetNotification) :
    ∀ r : MyChannelGetRequester,
      (deliverAll MyChannelGetRequester.deliver r ns).self.done_event.isSet = true ↔
        (r.done_event.isSet = true ∨
          ∃ status channelGet structure_,
            GetNotification.channelGetConnect status channelGet structure_ ∈ ns) := by
  induction ns with
  | nil => intro r; simp [deliverAll, Effect.skip]
  | cons n ns ih =>
    intro r
    rw [deliverAll_cons_self, ih]
    cases n with
    | channelGetConnect status channelGet structure_ =>
      have hset : (r.channelGetConnect status channelGet structure_).self.done_event.isSet
          = true := by
        unfold MyChannelGetRequester.channelGetConnect
        by_cases hs : status.isSuccess = true <;> simp [hs, Event.signal]
      simp only [MyChannelGetRequester.deliver, hset, true_or, true_iff]
      exact Or.inr ⟨status, channelGet, structure_, List.mem_cons_self _ _⟩
    | getDone status channelGet pvStructure bitSet =>
      simp [MyChannelGetRequester.deliver, MyChannelGetRequester.getDone]

/-! ## The connection coordinator -/

/-- After a delivery sequence the connect signal is set exactly when it was set at
the start or the sequence contains a state change to CONNECTED. -/
theorem connect_event_after (ns : List ChannelNotification) :
    ∀ r : MyChannelRequester,
      (deliverAll MyChannelRequester.deliver r ns).self.connect_event.isSet = true ↔
        (r.connect_event.isSet = true ∨
          ∃ channel, ChannelNotification.channelStateChange channel
            ConnectionState.CONNECTED ∈ ns) := by
  induction ns with
  | nil => intro r; simp [deliverAll, Effect.skip]
  | cons n ns ih =>
    intro r
    rw [deliverAll_cons_self, ih]
    cases n with
    | channelCreated status channel =>
      simp [MyChannelRequester.deliver, MyChannelRequester.channelCreated]
    | channelStateChange channel connectionState =>
      by_cases hc : connectionState = ConnectionState.CONNECTED
      · subst hc
        simp [MyChannelRequester.deliver, MyChannelRequester.channelStateChange, Event.signal]
      · simp only [MyChannelRequester.deliver, MyChannelRequester.channelStateChange, hc,
          if_false, List.mem_cons]
        constructor
        · rintro (h | ⟨ch, h⟩)
          · exact Or.inl h
          · exact Or.inr ⟨ch, Or.inr h⟩
        · rintro (h | ⟨ch, h | h⟩)
          · exact Or.inl h
          · cases h; exact absurd rfl hc
          · exact Or.inr ⟨ch, h⟩

/-- C5: for every sequence of notifications delivered to a fresh MyChannelRequester,
the connect signal is set, and waitUntilConnected(0) returns true, exactly when the
sequence contains a channelStateChange to CONNECTED; channelCreated leaves the
requester as it was, whatever its status; a CONNECTED delivery leaves the signal set,
whatever it was before. -/
theorem waitUntilConnected_iff_connected :
    (∀ ns : List ChannelNotification,
        (deliverAll MyChannelRequester.deliver MyChannelRequester.new ns).self.waitUntilConnected 0
            = true ↔
          ∃ channel, ChannelNotification.channelStateChange channel
            ConnectionState.CONNECTED ∈ ns)
    ∧ (∀ (r : MyChannelRequester) (status : Status) (channel : Channel),
        (r.channelCreated status channel).self = r)
    ∧ (∀ (r : MyChannelRequester) (channel : Channel),
        (r.channelStateChange channel ConnectionState.CONNECTED).self.connect_event.isSet
          = true) := by
  refine ⟨?_, ?_, ?_⟩
  · intro ns
    unfold MyChannelRequester.waitUntilConnected Event.wait
    rw [connect_event_after]
    simp [MyChannelRequester.new, Event.new]
  · intro r status channel
    rfl
  · intro r channel
    simp [MyChannelRequester.channelStateChange, Event.signal]

/-! ## The discovery coordinator -/

/-- C9, counterexample: no reading of the field requester gives the reported type
after a delivery with success status and a failure marker (none) after a delivery
with failure status, nor tells a scalar from a structure: the requester ends in the
same state in the three cases, it holds the done signal and nothing else. -/
theorem fieldRequester_records_nothing :
    ¬ ∃ recorded : MyFieldRequester → Option FieldType,
        recorded (MyFieldRequester.new.getDone ⟨true, "OK"⟩ ⟨FieldType.scalar⟩).self
            = some FieldType.scalar
          ∧ recorded (MyFieldRequester.new.getDone ⟨true, "OK"⟩ ⟨FieldType.structure_⟩).self
            = some FieldType.structure_
          ∧ recorded
              (MyFieldRequester.new.getDone ⟨false, "channel not connected"⟩
                ⟨FieldType.scalar⟩).self
            = none := by
  rintro ⟨recorded, h1, _, h3⟩
  have e : (MyFieldRequester.new.getDone ⟨false, "channel not connected"⟩
      ⟨FieldType.scalar⟩).self
      = (MyFieldRequester.new.getDone ⟨true, "OK"⟩ ⟨FieldType.scalar⟩).self := rfl
  rw [e, h1] at h3
  cases h3

/-- C9, amended: for every status delivered to MyFieldRequester::getDone with a
field (a pointer that is not null), the requester writes the type of the field to the
output and sets its done signal, so that waitUntilDone(0) returns true afterwards,
whatever the signal was before; it keeps neither the type nor a failure marker and
does not consult the status: the requester afterwards is the same whatever status and
field were delivered; a fresh requester has the signal unset and waitUntilDone(0)
returns false. -/
theorem fieldRequester_getDone_signals :
    (∀ (r : MyFieldRequester) (status : Status) (field : Field),
        (r.getDone status field).self.waitUntilDone 0 = true
          ∧ (r.getDone status field).cout
              = [Token.str "Field type: ", Token.fieldType field.getType, Token.endl]
          ∧ ∀ (status2 : Status) (field2 : Field),
              (r.getDone status2 field2).self = (r.getDone status field).self)
    ∧ MyFieldRequester.new.waitUntilDone 0 = false := by
  refine ⟨?_, rfl⟩
  intro r status field
  exact ⟨rfl, rfl, fun _ _ => rfl⟩

/-! ## monitor -/

/-- C6: when the registry has no provider under "pva", monitor throws "No channel
provider" for every name, request and timeout, and the only call it has made is the
registry look-up: no createChannel, getField, createRequest or createChannelGet. -/
theorem monitor_without_provider (env : Env) (name request : String) (timeout : ℚ)
    (hnone : env.registry.getProvider "pva" = none) :
    (monitor env name request timeout).result = Except.error "No channel provider"
      ∧ (monitor env name request timeout).actions = [Action.getProvider "pva"]
      ∧ (monitor env name request timeout).calls = [] := by
  simp [monitor, hnone]

/-- Witness of C6: the empty registry. -/
theorem monitor_without_provider_witness :
    envWithout.registry.getProvider "pva" = none
      ∧ ((monitor envWithout "neutrons" "field()" 2).result
            = Except.error "No channel provider"
        ∧ (monitor envWithout "neutrons" "field()" 2).actions = [Action.getProvider "pva"]
        ∧ (monitor envWithout "neutrons" "field()" 2).calls = []) :=
  ⟨rfl, monitor_without_provider envWithout "neutrons" "field()" 2 rfl⟩

/-- C7: when a provider is registered, monitor makes, after the registry look-up,
exactly these calls, each once and in this order: createChannel(name),
waitUntilConnected(timeout), getField with the empty path, waitUntilDone(timeout) on
the field requester, createRequest(request), createChannelGet with the parsed request,
waitUntilDone(timeout) on the get requester; the sequence is the same whatever the
three waits return, each wait is given the caller's timeout, and monitor returns
normally. -/
theorem monitor_sequence (env : Env) (p : ChannelProvider) (name request : String)
    (timeout : ℚ) (hsome : env.registry.getProvider "pva" = some p) :
    (monitor env name request timeout).actions
        = [Action.getProvider "pva",
           Action.createChannel name,
           Action.waitUntilConnected timeout
             ((deliverAll MyChannelRequester.deliver MyChannelRequester.new
                (p.createChannel name)).self.waitUntilConnected timeout),
           Action.getField "",
           Action.fieldWaitUntilDone timeout
             ((deliverAll MyFieldRequester.deliver MyFieldRequester.new
                (p.getField name "")).self.waitUntilDone timeout),
           Action.createRequest request,
           Action.createChannelGet (env.createRequest request),
           Action.getWaitUntilDone timeout
             ((deliverAll MyChannelGetRequester.deliver MyChannelGetRequester.new
                (p.createChannelGet name (env.createRequest request))).self.waitUntilDone
                  timeout)]
      ∧ (monitor env name request timeout).result = Except.ok () := by
  simp [monitor, hsome]

/-- Witness of C7: a provider that never answers; the three waits return false and
every step is still made. -/
theorem monitor_sequence_witness :
    (envWith silentProvider).registry.getProvider "pva" = some silentProvider
      ∧ (monitor (envWith silentProvider) "neutrons" "field()" 2).actions
          = [Action.getProvider "pva",
             Action.createChannel "neutrons",
             Action.waitUntilConnected 2 false,
             Action.getField "",
             Action.fieldWaitUntilDone 2 false,
             Action.createRequest "field()",
             Action.createChannelGet ⟨[]⟩,
             Action.getWaitUntilDone 2 false]
      ∧ (monitor (envWith silentProvider) "neutrons" "field()" 2).result = Except.ok () :=
  ⟨rfl, monitor_sequence (envWith silentProvider) silentProvider "neutrons" "field()" 2 rfl⟩

/-- Every combination of results of the three waits occurs with some provider. -/
theorem monitor_wait_results_occur (b1 b2 b3 : Bool) (name request : String) (timeout : ℚ) :
    ∃ env : Env,
      (monitor env name request timeout).actions
        = [Action.getProvider "pva",
           Action.createChannel name,
           Action.waitUntilConnected timeout b1,
           Action.getField "",
           Action.fieldWaitUntilDone timeout b2,
           Action.createRequest request,
           Action.createChannelGet (env.createRequest request),
           Action.getWaitUntilDone timeout b3] := by
  refine ⟨envWith
    { createChannel := fun n =>
        if b1 then [.channelStateChange ⟨n⟩ ConnectionState.CONNECTED] else []
      getField := fun _ _ => if b2 then [.getDone ⟨true, "OK"⟩ ⟨FieldType.scalar⟩] else []
      createChannelGet := fun n _ =>
        if b3 then [.channelGetConnect ⟨false, "no"⟩ ⟨⟨n⟩⟩ ⟨""⟩] else [] }, ?_⟩
  cases b1 <;> cases b2 <;> cases b3 <;> rfl

/-- C8, counterexample: no reading of the get requester and of monitor's return value
gives the snapshot 42.0 for the session whose fetch completes with value 42.0 and
change mask {0}, and an absent snapshot for the session whose fetch operation fails
to connect: the requester ends in the same state and monitor returns the same (empty)
value in both. -/
theorem monitor_returns_no_snapshot :
    ¬ ∃ snapshot : MyChannelGetRequester → Except String Unit → Option (PVStructure × BitSet),
        snapshot
            (deliverAll MyChannelGetRequester.deliver MyChannelGetRequester.new
              (servingProvider.createChannelGet "neutrons" ⟨[]⟩)).self
            (monitor (envWith servingProvider) "neutrons" "field()" 2).result
          = some (⟨[("value", 42)]⟩, ⟨[0]⟩)
        ∧ snapshot
            (deliverAll MyChannelGetRequester.deliver MyChannelGetRequester.new
              (failingProvider.createChannelGet "neutrons" ⟨[]⟩)).self
            (monitor (envWith failingProvider) "neutrons" "field()" 2).result
          = none := by
  rintro ⟨snapshot, h1, h2⟩
  have e1 : (monitor (envWith servingProvider) "neutrons" "field()" 2).result = Except.ok () :=
    rfl
  have e2 : (monitor (envWith failingProvider) "neutrons" "field()" 2).result = Except.ok () :=
    rfl
  have e3 : (deliverAll MyChannelGetRequester.deliver MyChannelGetRequester.new
      (failingProvider.createChannelGet "neutrons" ⟨[]⟩)).self
      = (deliverAll MyChannelGetRequester.deliver MyChannelGetRequester.new
      (servingProvider.createChannelGet "neutrons" ⟨[]⟩)).self := rfl
  rw [e1] at h1
  rw [e2, e3, h1] at h2
  cases h2

/-- C8, amended: the fetch-complete callback writes the status line and, when the
status is success, the delivered value to the output; it keeps no copy of the value
or of the change mask: the requester afterwards is the same whatever value and change
mask were delivered; it makes no call on the fetch operation; and monitor, when a
provider is registered, returns normally without a value. -/
theorem getDone_prints_value_only (env : Env) (p : ChannelProvider) (name request : String)
    (timeout : ℚ) (r : MyChannelGetRequester) (status : Status) (channelGet : ChannelGet)
    (pvStructure : PVStructure) (bitSet : BitSet)
    (hsome : env.registry.getProvider "pva" = some p) :
    (r.getDone status channelGet pvStructure bitSet).cout
        = [Token.str "ChannelGet for ", Token.str channelGet.getChannel.getChannelName,
           Token.str " finished, ", Token.status status, Token.endl]
          ++ (if status.isSuccess then [Token.dumpValue pvStructure] else [])
      ∧ (∀ (pvStructure2 : PVStructure) (bitSet2 : BitSet),
          (r.getDone status channelGet pvStructure2 bitSet2).self
            = (r.getDone status channelGet pvStructure bitSet).self)
      ∧ (r.getDone status channelGet pvStructure bitSet).calls = []
      ∧ (monitor env name request timeout).result = Except.ok () := by
  refine ⟨rfl, fun _ _ => rfl, rfl, ?_⟩
  simp [monitor, hsome]

/-- Witness of C8 as amended: a fetch completing with value 42.0 and change mask {0}
writes 42.0 to the output; the requester afterwards is the one a fetch completing
with any other value and change mask leaves. -/
theorem getDone_prints_value_only_witness :
    (envWith servingProvider).registry.getProvider "pva" = some servingProvider
      ∧ (MyChannelGetRequester.new.getDone ⟨true, "OK"⟩ ⟨⟨"neutrons"⟩⟩ ⟨[("value", 42)]⟩
            ⟨[0]⟩).cout
          = [Token.str "ChannelGet for ", Token.str "neutrons",
             Token.str " finished, ", Token.status ⟨true, "OK"⟩, Token.endl]
            ++ (if (Status.mk true "OK").isSuccess
                then [Token.dumpValue ⟨[("value", 42)]⟩] else [])
      ∧ (∀ (pvStructure2 : PVStructure) (bitSet2 : BitSet),
          (MyChannelGetRequester.new.getDone ⟨true, "OK"⟩ ⟨⟨"neutrons"⟩⟩ pvStructure2
              bitSet2).self
            = (MyChannelGetRequester.new.getDone ⟨true, "OK"⟩ ⟨⟨"neutrons"⟩⟩
                ⟨[("value", 42)]⟩ ⟨[0]⟩).self)
      ∧ (MyChannelGetRequester.new.getDone ⟨true, "OK"⟩ ⟨⟨"neutrons"⟩⟩ ⟨[("value", 42)]⟩
            ⟨[0]⟩).calls = []
      ∧ (monitor (envWith servingProvider) "neutrons" "field()" 2).result = Except.ok () :=
  ⟨rfl, getDone_prints_value_only (envWith servingProvider) servingProvider "neutrons"
    "field()" 2 MyChannelGetRequester.new ⟨true, "OK"⟩ ⟨⟨"neutrons"⟩⟩ ⟨[("value", 42)]⟩ ⟨[0]⟩ rfl⟩

/-! ## main -/

/-- The option string as a list of characters. -/
theorem optstring_toList : "r:w:h".toList = ['r', ':', 'w', ':', 'h'] := by decide

/-- An option character of "r:w:h" is r, w or h. -/
theorem optionKind_some (c : Char) (b : Bool)
    (h : optionKind "r:w:h".toList c = some b) : c = 'r' ∨ c = 'w' ∨ c = 'h' := by
  rw [optstring_toList] at h
  by_cases hr : 'r' = c
  · exact Or.inl hr.symm
  by_cases hw : 'w' = c
  · exact Or.inr (Or.inl hw.symm)
  by_cases hh : 'h' = c
  · exact Or.inr (Or.inr hh.symm)
  have hcolon : ¬ (':' = c ∧ ¬ c = ':') := fun hc => hc.2 hc.1.symm
  simp [optionKind, hr, hw, hh, hcolon] at h

/-- What scanOption returns: the code of ? together with a diagnostic on stderr, or
the code of r, w or h and nothing on stderr. -/
theorem scanOption_value (s : GetoptState) (c : Char) (cs : List Char) :
    ((scanOption "r:w:h" s c cs).opt = charCode '?'
        ∧ (scanOption "r:w:h" s c cs).stderr ≠ [])
      ∨ (((scanOption "r:w:h" s c cs).opt = charCode 'r'
            ∨ (scanOption "r:w:h" s c cs).opt = charCode 'w'
            ∨ (scanOption "r:w:h" s c cs).opt = charCode 'h')
          ∧ (scanOption "r:w:h" s c cs).stderr = []) := by
  unfold scanOption
  rcases hk : optionKind "r:w:h".toList c with _ | b
  · simp
  · have hc := optionKind_some c b hk
    cases b
    · rcases hc with hc | hc | hc <;> simp [hc]
    · by_cases hcs : cs = []
      · rcases hr : s.rest with _ | ⟨a, rest⟩
        · simp [hcs]
        · rcases hc with hc | hc | hc <;> simp [hcs, hc]
      · rcases hc with hc | hc | hc <;> simp [hcs, hc]

/-- What getopt returns with the option string "r:w:h": -1 and nothing on stderr, or
the code of ? and a diagnostic on stderr, or the code of r, w or h and nothing on
stderr. -/
theorem getopt_value (p : Bool) (s : GetoptState) :
    ((getopt p "r:w:h" s).opt = -1 ∧ (getopt p "r:w:h" s).stderr = [])
      ∨ ((getopt p "r:w:h" s).opt = charCode '?' ∧ (getopt p "r:w:h" s).stderr ≠ [])
      ∨ (((getopt p "r:w:h" s).opt = charCode 'r'
            ∨ (getopt p "r:w:h" s).opt = charCode 'w'
            ∨ (getopt p "r:w:h" s).opt = charCode 'h')
          ∧ (getopt p "r:w:h" s).stderr = []) := by
  unfold getopt
  split
  · exact Or.inr (scanOption_value _ _ _)
  · cases p
    all_goals
      simp only [Bool.false_eq_true, if_false, if_true]
      split
      · exact Or.inl ⟨rfl, rfl⟩
      · split
        · split
          · exact Or.inl ⟨rfl, rfl⟩
          · exact Or.inr (scanOption_value _ _ _)
        · exact Or.inl ⟨rfl, rfl⟩

/-- The option loop returns 0 with the usage text, and adds nothing to stderr, when
getopt returns h before it returns ? or -1. -/
theorem optionLoop_help (env : Env) (argv : List String) (k : ℕ) :
    ∀ (s : GetoptState) (request : String) (timeout : ℚ) (err : List Token),
      (∀ j < k, getoptValue env s j ≠ charCode '?' ∧ getoptValue env s j ≠ -1) →
      getoptValue env s k = charCode 'h' →
      optionLoop env argv s request timeout err
        = Parsed.exit 0 (help (argv.getD 0 "")) err := by
  induction k with
  | zero =>
    intro s request timeout err _ hk
    have hk0 : (getopt env.posixlyCorrect "r:w:h" s).opt = charCode 'h' := hk
    have herr : (getopt env.posixlyCorrect "r:w:h" s).stderr = [] := by
      rcases getopt_value env.posixlyCorrect s with h | h | h
      · rw [h.1] at hk0; simp [charCode] at hk0
      · rw [h.1] at hk0; simp [charCode] at hk0
      · exact h.2
    rw [optionLoop]
    simp [hk0, herr, charCode]
  | succ k ih =>
    intro s request timeout err hbefore hk
    have h0 := hbefore 0 (Nat.succ_pos k)
    have hq : (getopt env.posixlyCorrect "r:w:h" s).opt ≠ charCode '?' := h0.1
    have hm : (getopt env.posixlyCorrect "r:w:h" s).opt ≠ -1 := h0.2
    have hnext : ∀ request2 timeout2 err2,
        optionLoop env argv (getopt env.posixlyCorrect "r:w:h" s).state request2 timeout2 err2
          = Parsed.exit 0 (help (argv.getD 0 "")) err2 := by
      intro request2 timeout2 err2
      apply ih
      · intro j hj
        exact hbefore (j + 1) (Nat.succ_lt_succ hj)
      · exact hk
    rw [optionLoop]
    rcases getopt_value env.posixlyCorrect s with h | h | ⟨h | h | h, herr⟩
    · exact absurd h.1 hm
    · exact absurd h.1 hq
    · simp [h, herr, hnext, charCode]
    · simp [h, herr, hnext, charCode]
    · simp [h, herr, charCode]

/-- The option loop returns -1 with the usage text, after getopt has written a
diagnostic to stderr, when getopt returns ? before it returns h or -1. -/
theorem optionLoop_unrecognized (env : Env) (argv : List String) (k : ℕ) :
    ∀ (s : GetoptState) (request : String) (timeout : ℚ) (err : List Token),
      (∀ j < k, getoptValue env s j ≠ charCode 'h' ∧ getoptValue env s j ≠ -1) →
      getoptValue env s k = charCode '?' →
      ∃ diagnostic : List Token, diagnostic ≠ [] ∧
        optionLoop env argv s request timeout err
          = Parsed.exit (-1) (help (argv.getD 0 "")) (err ++ diagnostic) := by
  induction k with
  | zero =>
    intro s request timeout err _ hk
    have hk0 : (getopt env.posixlyCorrect "r:w:h" s).opt = charCode '?' := hk
    have herr : (getopt env.posixlyCorrect "r:w:h" s).stderr ≠ [] := by
      rcases getopt_value env.posixlyCorrect s with h | h | ⟨h | h | h, _⟩
      · rw [h.1] at hk0; simp [charCode] at hk0
      · exact h.2
      · rw [h] at hk0; simp [charCode] at hk0
      · rw [h] at hk0; simp [charCode] at hk0
      · rw [h] at hk0; simp [charCode] at hk0
    refine ⟨_, herr, ?_⟩
    rw [optionLoop]
    simp [hk0, charCode]
  | succ k ih =>
    intro s request timeout err hbefore hk
    have h0 := hbefore 0 (Nat.succ_pos k)
    have hh : (getopt env.posixlyCorrect "r:w:h" s).opt ≠ charCode 'h' := h0.1
    have hm : (getopt env.posixlyCorrect "r:w:h" s).opt ≠ -1 := h0.2
    have hnext : ∀ request2 timeout2 err2,
        ∃ diagnostic : List Token, diagnostic ≠ [] ∧
          optionLoop env argv (getopt env.posixlyCorrect "r:w:h" s).state request2 timeout2
              err2
            = Parsed.exit (-1) (help (argv.getD 0 "")) (err2 ++ diagnostic) := by
      intro request2 timeout2 err2
      exact ih (getopt env.posixlyCorrect "r:w:h" s).state request2 timeout2 err2
        (fun j hj => hbefore (j + 1) (Nat.succ_lt_succ hj)) hk
    rcases getopt_value env.posixlyCorrect s with h | h | ⟨h | h | h, herr⟩
    · exact absurd h.1 hm
    · refine ⟨_, h.2, ?_⟩
      rw [optionLoop]
      simp [h.1, charCode]
    · obtain ⟨diagnostic, hne, hloop⟩ := hnext
        ((getopt env.posixlyCorrect "r:w:h" s).state.optarg.getD "") timeout (err ++ [])
      refine ⟨diagnostic, hne, ?_⟩
      rw [optionLoop]
      simp only [List.append_nil] at hloop
      simp [h, herr, hloop, charCode]
    · obtain ⟨diagnostic, hne, hloop⟩ := hnext request
        (env.atof ((getopt env.posixlyCorrect "r:w:h" s).state.optarg.getD "")) (err ++ [])
      refine ⟨diagnostic, hne, ?_⟩
      rw [optionLoop]
      simp only [List.append_nil] at hloop
      simp [h, herr, hloop, charCode]
    · exact absurd h hh

/-- Without arguments the option loop ends at once with the defaults. -/
theorem optionLoop_no_arguments (env : Env) (prog request : String) (timeout : ℚ) :
    optionLoop env [prog] (GetoptState.start [prog]) request timeout []
      = Parsed.run request timeout ⟨prog, [], [], [], [], none⟩ [] := by
  have h : getopt env.posixlyCorrect "r:w:h" (GetoptState.start [prog])
      = ⟨-1, [], ⟨prog, [], [], [], [], none⟩⟩ := by
    cases env.posixlyCorrect <;> rfl
  rw [optionLoop]
  simp [h]

/-- C10: for every argument vector, when getopt returns h before it returns ? or -1,
main prints the usage text and returns 0; when getopt returns ? (an unrecognized
option, or an option without its argument, each reported by getopt on stderr) before
it returns h or -1, main prints the usage text and returns -1; in both cases main
makes no call at all, so monitor is not called.  With the program name as the only
element of argv, main prints the defaults and returns 0 after calling monitor with
channel "neutrons", request "field()" and timeout 2.0. -/
theorem main_exit_status (env : Env) (argv : List String) (k : ℕ) :
    ((∀ j < k, getoptValue env (GetoptState.start argv) j ≠ charCode '?'
          ∧ getoptValue env (GetoptState.start argv) j ≠ -1) →
      getoptValue env (GetoptState.start argv) k = charCode 'h' →
      (main env argv).status = 0
        ∧ (main env argv).cout
            = [Token.str "USAGE: ", Token.str (argv.getD 0 ""),
               Token.str " [options] [channel]", Token.endl,
               Token.str "  -h        : Help", Token.endl,
               Token.str "  -r request: Request", Token.endl,
               Token.str "  -w seconds: Wait timeout", Token.endl]
        ∧ (main env argv).stderr = []
        ∧ (main env argv).actions = []
        ∧ (main env argv).calls = [])
    ∧ ((∀ j < k, getoptValue env (GetoptState.start argv) j ≠ charCode 'h'
          ∧ getoptValue env (GetoptState.start argv) j ≠ -1) →
      getoptValue env (GetoptState.start argv) k = charCode '?' →
      (main env argv).status = -1
        ∧ (main env argv).cout
            = [Token.str "USAGE: ", Token.str (argv.getD 0 ""),
               Token.str " [options] [channel]", Token.endl,
               Token.str "  -h        : Help", Token.endl,
               Token.str "  -r request: Request", Token.endl,
               Token.str "  -w seconds: Wait timeout", Token.endl]
        ∧ (main env argv).stderr ≠ []
        ∧ (main env argv).actions = []
        ∧ (main env argv).calls = [])
    ∧ (∀ prog : String,
        (main env [prog]).status = 0
          ∧ (∃ rest, (main env [prog]).cout
              = [Token.str "Channel: ", Token.str "neutrons", Token.endl,
                 Token.str "Request: ", Token.str "field()", Token.endl,
                 Token.str "Wait:    ", Token.double 2, Token.str " sec", Token.endl]
                ++ rest)
          ∧ (∃ rest, (main env [prog]).actions
              = [Action.clientFactoryStart, Action.getProviderNames,
                 Action.monitor "neutrons" "field()" 2]
                ++ (monitor env "neutrons" "field()" 2).actions ++ rest)
          ∧ (main env [prog]).calls = (monitor env "neutrons" "field()" 2).calls) := by
  refine ⟨?_, ?_, ?_⟩
  · intro hbefore hk
    unfold main
    rw [optionLoop_help env argv k _ _ _ _ hbefore hk]
    exact ⟨rfl, rfl, rfl, rfl, rfl⟩
  · intro hbefore hk
    obtain ⟨diagnostic, hne, hloop⟩ :=
      optionLoop_unrecognized env argv k (GetoptState.start argv) "field()" 2 [] hbefore hk
    unfold main
    rw [hloop]
    exact ⟨rfl, rfl, by simpa using hne, rfl, rfl⟩
  · intro prog
    unfold main
    rw [optionLoop_no_arguments]
    rcases hres : (monitor env "neutrons" "field()" 2).result with what | u
    · simp [hres, GetoptState.optind]
    · simp [hres, GetoptState.optind]

/-- Witness of C10: the help flag alone after an option with its argument, and after
a positional argument; an unrecognized option after an option with its argument, and
after a positional argument. -/
theorem main_exit_status_witness :
    ((main envWithout ["neutronClient", "-w", "1", "-h"]).status = 0
        ∧ (main envWithout ["neutronClient", "-w", "1", "-h"]).cout
            = [Token.str "USAGE: ", Token.str "neutronClient",
               Token.str " [options] [channel]", Token.endl,
               Token.str "  -h        : Help", Token.endl,
               Token.str "  -r request: Request", Token.endl,
               Token.str "  -w seconds: Wait timeout", Token.endl]
        ∧ (main envWithout ["neutronClient", "-w", "1", "-h"]).stderr = []
        ∧ (main envWithout ["neutronClient", "-w", "1", "-h"]).actions = []
        ∧ (main envWithout ["neutronClient", "-w", "1", "-h"]).calls = [])
      ∧ ((main envWithout ["neutronClient", "chan", "-h"]).status = 0
        ∧ (main envWithout ["neutronClient", "chan", "-h"]).cout
            = [Token.str "USAGE: ", Token.str "neutronClient",
               Token.str " [options] [channel]", Token.endl,
               Token.str "  -h        : Help", Token.endl,
               Token.str "  -r request: Request", Token.endl,
               Token.str "  -w seconds: Wait timeout", Token.endl]
        ∧ (main envWithout ["neutronClient", "chan", "-h"]).stderr = []
        ∧ (main envWithout ["neutronClient", "chan", "-h"]).actions = []
        ∧ (main envWithout ["neutronClient", "chan", "-h"]).calls = [])
      ∧ ((main envWithout ["neutronClient", "-r", "field(value)", "-x"]).status = -1
        ∧ (main envWithout ["neutronClient", "-r", "field(value)", "-x"]).cout
            = [Token.str "USAGE: ", Token.str "neutronClient",
               Token.str " [options] [channel]", Token.endl,
               Token.str "  -h        : Help", Token.endl,
               Token.str "  -r request: Request", Token.endl,
               Token.str "  -w seconds: Wait timeout", Token.endl]
        ∧ (main envWithout ["neutronClient", "-r", "field(value)", "-x"]).stderr ≠ []
        ∧ (main envWithout ["neutronClient", "-r", "field(value)", "-x"]).actions = []
        ∧ (main envWithout ["neutronClient", "-r", "field(value)", "-x"]).calls = [])
      ∧ ((main envWithout ["neutronClient", "chan", "-x"]).status = -1
        ∧ (main envWithout ["neutronClient", "chan", "-x"]).cout
            = [Token.str "USAGE: ", Token.str "neutronClient",
               Token.str " [options] [channel]", Token.endl,
               Token.str "  -h        : Help", Token.endl,
               Token.str "  -r request: Request", Token.endl,
               Token.str "  -w seconds: Wait timeout", Token.endl]
        ∧ (main envWithout ["neutronClient", "chan", "-x"]).stderr ≠ []
        ∧ (main envWithout ["neutronClient", "chan", "-x"]).actions = []
        ∧ (main envWithout ["neutronClient", "chan", "-x"]).calls = []) :=
  ⟨(main_exit_status envWithout ["neutronClient", "-w", "1", "-h"] 1).1
      (by decide) (by decide),
   (main_exit_status envWithout ["neutronClient", "chan", "-h"] 0).1
      (by decide) (by decide),
   (main_exit_status envWithout ["neutronClient", "-r", "field(value)", "-x"] 1).2.1
      (by decide) (by decide),
   (main_exit_status envWithout ["neutronClient", "chan", "-x"] 0).2.1
      (by decide) (by decide)⟩

end NeutronClient
